import Mathlib

/-!
Verification development for the vhdx-rs repository: a shallow embedding of
the on-disk VHDX header, region table and redo-log parsing code, together
with theorems settling the frozen specification claims.

Sources embedded (paths relative to the repository root):
  src/lib.rs          -- Signature enum, trait shapes
  src/vhdx_header.rs  -- Header, RegionTable, RTEntry, validation, CRC
  src/log.rs          -- LogHeader, descriptors, DataSector, LogEntry,
                         LogSequence and their parsing and validation
  src/vhdx/vhdx.rs    -- the orchestration path (Vhdx::new)

Machine integers are modelled as Nat with explicit wrap-around where the
source performs wrapping arithmetic.  Fallible Rust code returning
Result, as well as panics (panic!, todo!, unwrap), are modelled with
Except over an error type; panics are distinguished constructors.
-/

namespace VhdxRs

/-- Signature enum from src/lib.rs lines 30-41: the closed set of structural
magic tags with an Unknown fallback preserving the raw bytes. -/
inductive Signature where
  | Vhdxfile
  | Head
  | Regi
  | Loge
  | Zero
  | Data
  | Desc
  | MetaData
  | Unknown (raw : List Nat)
deriving DecidableEq

/-- Field-name strings used by the error constructors (string literals from
src/vhdx_header.rs and src/log.rs). -/
def headerLogVersionField : String := "Header Log Version"

def headerLogLengthField : String := "Header Log Length"

def headerLogOffsetField : String := "Header Log Offset"

def logEntryLengthField : String := "Log Entry Length"

def logTailField : String := "Log Tail"

def logSeqNumberField : String := "Log Sequence Number"

def logDescCountField : String := "Log Description Count"

def flushedFileOffsetField : String := "Flushed File Offset"

def lastFileOffsetField : String := "Last File Offset"

/-- Modelled from the spec: the error taxonomy of section 7 (the module
src/error.rs is not part of the provided sources).  The constructors mirror
the variants constructed by the code that is present: SignatureError,
Crc32Error, VersionError, NotAllowedToBeZero, NotDivisbleByMB,
RTEntryCountError (RegionCountExceeded), UnknownRTEntryFound, and the
fatal I/O conditions (ShortRead, SeekError).  Panics in the source
(todo!, panic!, unwrap) are modelled as the distinguished constructors
TodoNotImplemented and PanicFixThisError; FuelExhausted marks a modelling
bound on an unbounded Rust while loop and is never reached on the inputs
used in this development. -/
inductive VhdxError where
  | SignatureError (expected found : Signature)
  | Crc32Error (stored computed : Nat)
  | VersionError (v : Nat)
  | NotAllowedToBeZero (field : String)
  | NotDivisbleByMB (field : String) (value : Nat)
  | RTEntryCountError (count : Nat)
  | UnknownRTEntryFound (guid : List Nat)
  | ShortRead
  | SeekError
  | TodoNotImplemented
  | PanicFixThisError
  | FuelExhausted
deriving DecidableEq

/-- A random-access byte source: the Cursor over a byte vector that the
tests use, and the reader abstraction of the DeSerialise trait.  Bytes are
Nat values below 256; pos is the stream position. -/
structure Reader where
  data : List Nat
  pos : Nat
deriving DecidableEq

/-- Rust read_exact: consume exactly n bytes or fail (UnexpectedEof) without
a useful partial result. -/
def readExact (r : Reader) (n : Nat) : Except VhdxError (List Nat × Reader) :=
  let chunk := (r.data.drop r.pos).take n
  if chunk.length = n then
    Except.ok (chunk, { r with pos := r.pos + n })
  else
    Except.error VhdxError.ShortRead

/-- Rust Seek with SeekFrom::Start on a cursor: never fails, the position
may move past the end of the data. -/
def seekFromStart (r : Reader) (offset : Nat) : Reader :=
  { r with pos := offset }

/-- Rust Seek with SeekFrom::Current on a cursor: fails when the resulting
position would be negative. -/
def seekFromCurrent (r : Reader) (offset : Int) : Except VhdxError Reader :=
  let newPos : Int := (r.pos : Int) + offset
  if newPos < 0 then Except.error VhdxError.SeekError
  else Except.ok { r with pos := newPos.toNat }

/-- Rust stream_position on a cursor: never fails. -/
def streamPosition (r : Reader) : Nat := r.pos

/-- Little-endian byte-list decoding (bytes taken low first). -/
def leBytesToNat (bytes : List Nat) : Nat :=
  bytes.foldr (fun b acc => b % 256 + 256 * acc) 0

/-- Little-endian serialisation of a 32-bit value (to_le_bytes). -/
def u32LeBytes (v : Nat) : List Nat :=
  [v % 256, v / 256 % 256, v / 65536 % 256, v / 16777216 % 256]

/-- Little-endian serialisation of a 64-bit value (to_le_bytes). -/
def u64LeBytes (v : Nat) : List Nat :=
  u32LeBytes (v % 4294967296) ++ u32LeBytes (v / 4294967296 % 4294967296)

/-- Little-endian serialisation of a 16-bit value (to_le_bytes). -/
def u16LeBytes (v : Nat) : List Nat :=
  [v % 256, v / 256 % 256]

/-- Modelled from the spec: the 4-byte tag decoder t_sign_u32 of
src/parse_utils.rs (not among the provided sources).  Section 2 of the spec:
4-byte tag decoding into a closed signature set with an Unknown(bytes)
fallback preserving raw bytes; section 6 gives the tags as raw ASCII:
head, regi, loge, zero, desc, data. -/
def t_sign_u32 (bytes : List Nat) : Signature :=
  if bytes = [0x68, 0x65, 0x61, 0x64] then Signature.Head
  else if bytes = [0x72, 0x65, 0x67, 0x69] then Signature.Regi
  else if bytes = [0x6C, 0x6F, 0x67, 0x65] then Signature.Loge
  else if bytes = [0x7A, 0x65, 0x72, 0x6F] then Signature.Zero
  else if bytes = [0x64, 0x61, 0x74, 0x61] then Signature.Data
  else if bytes = [0x64, 0x65, 0x73, 0x63] then Signature.Desc
  else Signature.Unknown bytes

/-- Vhdx::KB constant (the current src/vhdx.rs module is referenced by the
sources as crate::vhdx::Vhdx; spec section 4.5 fixes the 4 KB sector and
1 MB alignment units). -/
def KB : Nat := 1024

/-- Vhdx::MB constant, 1048576. -/
def MB : Nat := 1048576

/-- CRC-32C (Castagnoli) one reflected shift round with reversed polynomial
0x82F63B78, matching Crc of CRC_32_ISCSI from the crc crate. -/
def crcRound (c : Nat) : Nat :=
  if c % 2 = 1 then (c / 2) ^^^ 0x82F63B78 else c / 2

/-- One byte of reflected CRC-32C update: xor the byte into the low bits
and perform eight shift rounds. -/
def crcByteStep (c b : Nat) : Nat :=
  crcRound (crcRound (crcRound (crcRound (crcRound (crcRound (crcRound (crcRound (c ^^^ b % 256))))))))

/-- Digest update over a byte list (crc::Digest::update). -/
def crcUpdate (c : Nat) (bytes : List Nat) : Nat :=
  bytes.foldl crcByteStep c

/-- Digest initial state for CRC-32C. -/
def crcInit : Nat := 0xFFFFFFFF

/-- Digest finalisation for CRC-32C (output xor). -/
def crcFinalize (c : Nat) : Nat := c ^^^ 0xFFFFFFFF

/-- Header structure from src/vhdx_header.rs lines 106-164.  The three GUID
fields are modelled as their 16 on-disk little-endian bytes (the uuid crate
value is determined by, and compared through, those bytes). -/
structure Header where
  signature : Signature
  checksum : Nat
  seq_number : Nat
  file_write_guid : List Nat
  data_write_guid : List Nat
  log_guid : List Nat
  log_version : Nat
  version : Nat
  log_length : Nat
  log_offset : Nat
deriving DecidableEq

/-- The all-zero 128-bit identifier (uuid nil), as its 16 zero bytes. -/
def zeroGuid : List Nat := List.replicate 16 0

/-- Header::SIGN, the bytes of the head tag. -/
def Header.SIGN : List Nat := [0x68, 0x65, 0x61, 0x64]

/-- Header validation from src/vhdx_header.rs lines 222-248 (impl Validation
for Header).  The checks, in source order: version must be 1, log_version
must be 0, log_length and log_offset must be multiples of 1 MB.  The source
performs no signature or checksum comparison and makes no exception for an
all-zero log_guid. -/
def Header.validate (h : Header) : Except VhdxError Unit :=
  if h.version ≠ 1 then
    Except.error (VhdxError.VersionError h.version)
  else if h.log_version ≠ 0 then
    Except.error (VhdxError.NotAllowedToBeZero headerLogVersionField)
  else if h.log_length % MB ≠ 0 then
    Except.error (VhdxError.NotDivisbleByMB headerLogLengthField h.log_length)
  else if h.log_offset % MB ≠ 0 then
    Except.error (VhdxError.NotDivisbleByMB headerLogOffsetField h.log_offset)
  else
    Except.ok ()

/-- Header::crc32_from_digest from src/vhdx_header.rs lines 207-219: the
head tag, four zero bytes in place of the checksum, then every field in
on-disk order, then 4016 zero bytes of reserved space. -/
def Header.crc32FromDigest (h : Header) (d : Nat) : Nat :=
  crcUpdate d
    (Header.SIGN ++ [0, 0, 0, 0] ++ u64LeBytes h.seq_number ++
      h.file_write_guid ++ h.data_write_guid ++ h.log_guid ++
      u16LeBytes h.log_version ++ u16LeBytes h.version ++
      u32LeBytes h.log_length ++ u64LeBytes h.log_offset ++
      List.replicate 4016 0)

/-- Header::crc32 from src/vhdx_header.rs lines 201-205. -/
def Header.crc32 (h : Header) : Nat :=
  crcFinalize (h.crc32FromDigest crcInit)

/-- Header field parsing (parse_headers, src/vhdx_header.rs lines 250-281):
signature, checksum u32, seq_number u64, three GUIDs, log_version u16,
version u16, log_length u32, log_offset u64, all little-endian. -/
def parse_headers (buffer : List Nat) : Header :=
  { signature := t_sign_u32 (buffer.take 4)
    checksum := leBytesToNat ((buffer.drop 4).take 4)
    seq_number := leBytesToNat ((buffer.drop 8).take 8)
    file_write_guid := (buffer.drop 16).take 16
    data_write_guid := (buffer.drop 32).take 16
    log_guid := (buffer.drop 48).take 16
    log_version := leBytesToNat ((buffer.drop 64).take 2)
    version := leBytesToNat ((buffer.drop 66).take 2)
    log_length := leBytesToNat ((buffer.drop 68).take 4)
    log_offset := leBytesToNat ((buffer.drop 72).take 8) }

/-- Header::deserialize from src/vhdx_header.rs lines 283-295: read a full
64 KB slot and decode the structure from its prefix. -/
def Header.deserialize (r : Reader) : Except VhdxError (Header × Reader) :=
  match readExact r (KB * 64) with
  | Except.error e => Except.error e
  | Except.ok (buffer, r1) => Except.ok (parse_headers buffer, r1)

/-- RTEntry from src/vhdx_header.rs lines 407-433; the guid is its 16
on-disk little-endian bytes. -/
structure RTEntry where
  guid : List Nat
  file_offset : Nat
  length : Nat
  required : Bool
deriving DecidableEq

/-- RTEntry::crc32_from_digest from src/vhdx_header.rs lines 442-447. -/
def RTEntry.crc32FromDigest (e : RTEntry) (d : Nat) : Nat :=
  crcUpdate d
    (e.guid ++ u64LeBytes e.file_offset ++ u32LeBytes e.length ++
      u32LeBytes (if e.required then 1 else 0))

/-- RTEntry::deserialize from src/vhdx_header.rs lines 450-467: 32 bytes,
guid, file_offset u64, length u32, required as u32 (t_bool_u32 of
parse_utils, modelled from the spec as nonzero meaning true). -/
def RTEntry.deserialize (r : Reader) : Except VhdxError (RTEntry × Reader) :=
  match readExact r 32 with
  | Except.error e => Except.error e
  | Except.ok (buffer, r1) =>
      Except.ok
        ({ guid := buffer.take 16
           file_offset := leBytesToNat ((buffer.drop 16).take 8)
           length := leBytesToNat ((buffer.drop 24).take 4)
           required := leBytesToNat ((buffer.drop 28).take 4) ≠ 0 }, r1)

/-- KnowRegion from src/vhdx_header.rs lines 469-473. -/
inductive KnowRegion where
  | Bat
  | MetaData
deriving DecidableEq

/-- RegionTable from src/vhdx_header.rs lines 301-331.  The BTreeMap from
KnowRegion to RTEntry is modelled as an association list with at most one
binding per key (insert replaces an existing binding). -/
structure RegionTable where
  signature : Signature
  checksum : Nat
  entry_count : Nat
  table_entries : List (KnowRegion × RTEntry)
deriving DecidableEq

/-- RegionTable::SIGN, the bytes of the regi tag. -/
def RegionTable.SIGN : List Nat := [0x72, 0x65, 0x67, 0x69]

/-- RegionTable::BAT_ENTRY, uuid 2DC27766-F623-4200-9D64-115E9BFD4A08, in
its on-disk little-endian byte form. -/
def RegionTable.BAT_ENTRY : List Nat :=
  [0x66, 0x77, 0xc2, 0x2d, 0x23, 0xf6, 0x00, 0x42,
   0x9d, 0x64, 0x11, 0x5e, 0x9b, 0xfd, 0x4a, 0x08]

/-- RegionTable::META_DATA_ENTRY, uuid 8B7CA206-4790-4B9A-B8FE-575F050F886E,
in its on-disk little-endian byte form. -/
def RegionTable.META_DATA_ENTRY : List Nat :=
  [0x06, 0xa2, 0x7c, 0x8b, 0x90, 0x47, 0x9a, 0x4b,
   0xb8, 0xfe, 0x57, 0x5f, 0x05, 0x0f, 0x88, 0x6e]

/-- BTreeMap::insert on the association-list model: replace the binding of
an existing key, otherwise append. -/
def insertEntry (m : List (KnowRegion × RTEntry)) (k : KnowRegion) (v : RTEntry) :
    List (KnowRegion × RTEntry) :=
  match m with
  | [] => [(k, v)]
  | (k0, v0) :: rest =>
      if k0 = k then (k, v) :: rest else (k0, v0) :: insertEntry rest k v

/-- BTreeMap iteration order (sorted by key, Bat before MetaData), used by
the CRC computation. -/
def sortedEntries (m : List (KnowRegion × RTEntry)) : List (KnowRegion × RTEntry) :=
  m.filter (fun p => decide (p.1 = KnowRegion.Bat)) ++
    m.filter (fun p => decide (p.1 = KnowRegion.MetaData))

/-- RegionTable::crc32_from_digest from src/vhdx_header.rs lines 370-375:
the 16-byte sub-header with the checksum bytes zeroed. -/
def RegionTable.crc32FromDigest (rt : RegionTable) (d : Nat) : Nat :=
  crcUpdate d
    (RegionTable.SIGN ++ [0, 0, 0, 0] ++ u32LeBytes rt.entry_count ++ [0, 0, 0, 0])

/-- RegionTable::crc32 from src/vhdx_header.rs lines 356-368: sub-header,
then each stored entry in map order, then zero bytes filling the rest of
the 64 KB table. -/
def RegionTable.crc32 (rt : RegionTable) : Nat :=
  let d0 := rt.crc32FromDigest crcInit
  let d1 := (sortedEntries rt.table_entries).foldl
    (fun acc p => p.2.crc32FromDigest acc) d0
  let deadLen := KB * 64 - 16 - 32 * rt.table_entries.length
  crcFinalize (crcUpdate d1 (List.replicate deadLen 0))

/-- RegionTable validation from src/vhdx_header.rs lines 333-353 (impl
Validation for RegionTable), in source order: signature must be the regi
tag, stored checksum must equal the recomputed CRC, entry_count must not
exceed 2047. -/
def RegionTable.validate (rt : RegionTable) : Except VhdxError Unit :=
  if rt.signature ≠ Signature.Regi then
    Except.error (VhdxError.SignatureError Signature.Regi rt.signature)
  else if rt.checksum ≠ rt.crc32 then
    Except.error (VhdxError.Crc32Error rt.checksum rt.crc32)
  else if 2047 < rt.entry_count then
    Except.error (VhdxError.RTEntryCountError rt.entry_count)
  else
    Except.ok ()

/-- The guid lookup inside RegionTable::deserialize (src/vhdx_header.rs
lines 395-399): a known identifier maps to its KnowRegion, any other
identifier is the fatal UnknownRTEntryFound error, with no consultation of
the required flag. -/
def matchKnownRegion (g : List Nat) : Except VhdxError KnowRegion :=
  if g = RegionTable.BAT_ENTRY then Except.ok KnowRegion.Bat
  else if g = RegionTable.META_DATA_ENTRY then Except.ok KnowRegion.MetaData
  else Except.error (VhdxError.UnknownRTEntryFound g)

/-- The entry-reading loop of RegionTable::deserialize (src/vhdx_header.rs
lines 393-401): entry_count iterations, each reading one 32-byte RTEntry,
classifying its guid and inserting it into the table. -/
def rtEntryLoop : Nat → RegionTable → Reader → Except VhdxError (RegionTable × Reader)
  | 0, rt, r => Except.ok (rt, r)
  | n + 1, rt, r =>
    match RTEntry.deserialize r with
    | Except.error e => Except.error e
    | Except.ok (entry, r1) =>
      match matchKnownRegion entry.guid with
      | Except.error e => Except.error e
      | Except.ok kr =>
          rtEntryLoop n
            { rt with table_entries := insertEntry rt.table_entries kr entry } r1

/-- RegionTable::deserialize from src/vhdx_header.rs lines 378-405: read the
16-byte sub-header (signature, checksum, entry_count, reserved), then
immediately read entry_count 32-byte entries.  No entry_count bound is
checked here. -/
def RegionTable.deserialize (r : Reader) : Except VhdxError (RegionTable × Reader) :=
  match readExact r 16 with
  | Except.error e => Except.error e
  | Except.ok (buffer, r1) =>
      rtEntryLoop (leBytesToNat ((buffer.drop 8).take 4))
        { signature := t_sign_u32 (buffer.take 4)
          checksum := leBytesToNat ((buffer.drop 4).take 4)
          entry_count := leBytesToNat ((buffer.drop 8).take 4)
          table_entries := [] } r1

/-- LogHeader from src/log.rs lines 145-196; the log_guid is its 16 on-disk
little-endian bytes. -/
structure LogHeader where
  signature : Signature
  checksum : Nat
  entry_length : Nat
  tail : Nat
  seq_number : Nat
  descript_count : Nat
  log_guid : List Nat
  flushed_file_offset : Nat
  last_file_offset : Nat
deriving DecidableEq

/-- LogHeader::SIGN, the bytes of the loge tag. -/
def LogHeader.SIGN : List Nat := [0x6C, 0x6F, 0x67, 0x65]

/-- LogHeader::deserialize from src/log.rs lines 226-268: a 64-byte buffer
decoded as signature, checksum u32, entry_length u32, tail u32,
seq_number u64, descript_count u32, a discarded reserved u32, the 16-byte
log_guid, flushed_file_offset u64, last_file_offset u64. -/
def LogHeader.deserialize (r : Reader) : Except VhdxError (LogHeader × Reader) :=
  match readExact r 64 with
  | Except.error e => Except.error e
  | Except.ok (buffer, r1) =>
      Except.ok
        ({ signature := t_sign_u32 (buffer.take 4)
           checksum := leBytesToNat ((buffer.drop 4).take 4)
           entry_length := leBytesToNat ((buffer.drop 8).take 4)
           tail := leBytesToNat ((buffer.drop 12).take 4)
           seq_number := leBytesToNat ((buffer.drop 16).take 8)
           descript_count := leBytesToNat ((buffer.drop 24).take 4)
           log_guid := (buffer.drop 32).take 16
           flushed_file_offset := leBytesToNat ((buffer.drop 48).take 8)
           last_file_offset := leBytesToNat ((buffer.drop 56).take 8) }, r1)

/-- LogHeader::crc32_from_digest from src/log.rs lines 277-288: the loge
tag, four zero bytes in place of the checksum, the fields in on-disk order
with four reserved zero bytes after descript_count. -/
def LogHeader.crc32FromDigest (h : LogHeader) (d : Nat) : Nat :=
  crcUpdate d
    (LogHeader.SIGN ++ [0, 0, 0, 0] ++ u32LeBytes h.entry_length ++
      u32LeBytes h.tail ++ u64LeBytes h.seq_number ++
      u32LeBytes h.descript_count ++ [0, 0, 0, 0] ++ h.log_guid ++
      u64LeBytes h.flushed_file_offset ++ u64LeBytes h.last_file_offset)

/-- LogHeader validation from src/log.rs lines 291-337 (impl Validation for
LogHeader), in source order: signature must be the loge tag, entry_length
and tail must be multiples of 4 KB, seq_number and descript_count must be
nonzero, flushed_file_offset and last_file_offset must be multiples of
1 MB.  The checksum comparison is absent; the source carries the comment
TODO: Calc checksum at that point and never reads the checksum field. -/
def LogHeader.validate (h : LogHeader) : Except VhdxError Unit :=
  if h.signature ≠ Signature.Loge then
    Except.error (VhdxError.SignatureError Signature.Loge h.signature)
  else if h.entry_length % (KB * 4) ≠ 0 then
    Except.error (VhdxError.NotDivisbleByMB logEntryLengthField h.entry_length)
  else if h.tail % (KB * 4) ≠ 0 then
    Except.error (VhdxError.NotDivisbleByMB logTailField h.tail)
  else if h.seq_number = 0 then
    Except.error (VhdxError.NotAllowedToBeZero logSeqNumberField)
  else if h.descript_count = 0 then
    Except.error (VhdxError.NotAllowedToBeZero logDescCountField)
  else if h.flushed_file_offset % MB ≠ 0 then
    Except.error (VhdxError.NotDivisbleByMB flushedFileOffsetField h.flushed_file_offset)
  else if h.last_file_offset % MB ≠ 0 then
    Except.error (VhdxError.NotDivisbleByMB lastFileOffsetField h.last_file_offset)
  else
    Except.ok ()

/-- DataSector from src/log.rs lines 517-535: data tag, 32-bit sequence
high half, 4084 payload bytes, 32-bit sequence low half. -/
structure DataSector where
  signature : Signature
  seq_high : Nat
  data : List Nat
  seq_low : Nat
deriving DecidableEq

/-- DataSector::SIGN, the bytes of the data tag. -/
def DataSector.SIGN : List Nat := [0x64, 0x61, 0x74, 0x61]

/-- DataSector::sequence_number from src/log.rs lines 550-552: the combined
64-bit value, high half shifted up 32 bits, or-ed with the low half. -/
def DataSector.sequence_number (s : DataSector) : Nat :=
  (s.seq_high % 4294967296) * 4294967296 ||| s.seq_low % 4294967296

/-- DataSector::deserialize from src/log.rs lines 555-573: a 4096-byte
buffer decoded as signature, seq_high u32, 4084 data bytes, seq_low u32. -/
def DataSector.deserialize (r : Reader) : Except VhdxError (DataSector × Reader) :=
  match readExact r 4096 with
  | Except.error e => Except.error e
  | Except.ok (buffer, r1) =>
      Except.ok
        ({ signature := t_sign_u32 (buffer.take 4)
           seq_high := leBytesToNat ((buffer.drop 4).take 4)
           data := (buffer.drop 8).take 4084
           seq_low := leBytesToNat ((buffer.drop 4092).take 4) }, r1)

/-- DataSector::crc32_from_digest from src/log.rs lines 582-587: the data
tag, the stored sequence halves and payload in on-disk order. -/
def DataSector.crc32FromDigest (s : DataSector) (d : Nat) : Nat :=
  crcUpdate d
    (DataSector.SIGN ++ u32LeBytes s.seq_high ++ s.data ++ u32LeBytes s.seq_low)

/-- ZeroDesc from src/log.rs lines 350-365. -/
structure ZeroDesc where
  signature : Signature
  zero_length : Nat
  file_offset : Nat
  seq_number : Nat
deriving DecidableEq

/-- ZeroDesc::SIGN from src/log.rs line 367.  The source constant is the
bytes 0x7A 0x65 0x72 0x67 (the last byte differs from the ASCII zero tag);
it is used only when composing the CRC stream. -/
def ZeroDesc.SIGN : List Nat := [0x7A, 0x65, 0x72, 0x67]

/-- ZeroDesc::deserialize from src/log.rs lines 386-407: 32 bytes decoded
as signature, a discarded u32, zero_length u64, file_offset u64,
seq_number u64. -/
def ZeroDesc.deserialize (r : Reader) : Except VhdxError (ZeroDesc × Reader) :=
  match readExact r 32 with
  | Except.error e => Except.error e
  | Except.ok (buffer, r1) =>
      Except.ok
        ({ signature := t_sign_u32 (buffer.take 4)
           zero_length := leBytesToNat ((buffer.drop 8).take 8)
           file_offset := leBytesToNat ((buffer.drop 16).take 8)
           seq_number := leBytesToNat ((buffer.drop 24).take 8) }, r1)

/-- ZeroDesc::crc32_from_digest from src/log.rs lines 426-432. -/
def ZeroDesc.crc32FromDigest (z : ZeroDesc) (d : Nat) : Nat :=
  crcUpdate d
    (ZeroDesc.SIGN ++ [0, 0, 0, 0] ++ u64LeBytes z.zero_length ++
      u64LeBytes z.file_offset ++ u64LeBytes z.seq_number)

/-- DataDesc from src/log.rs lines 435-458, including the optionally
attached DataSector. -/
structure DataDesc where
  signature : Signature
  trailing_bytes : List Nat
  leading_bytes : List Nat
  file_offset : Nat
  seq_number : Nat
  data_sector : Option DataSector
deriving DecidableEq

/-- DataDesc::SIGN, the bytes of the desc tag. -/
def DataDesc.SIGN : List Nat := [0x64, 0x65, 0x73, 0x63]

/-- DataDesc::deserialize from src/log.rs lines 465-488: 32 bytes decoded
as signature, 4 trailing bytes, 8 leading bytes, file_offset u64,
seq_number u64, with no data sector attached yet. -/
def DataDesc.deserialize (r : Reader) : Except VhdxError (DataDesc × Reader) :=
  match readExact r 32 with
  | Except.error e => Except.error e
  | Except.ok (buffer, r1) =>
      Except.ok
        ({ signature := t_sign_u32 (buffer.take 4)
           trailing_bytes := (buffer.drop 4).take 4
           leading_bytes := (buffer.drop 8).take 8
           file_offset := leBytesToNat ((buffer.drop 16).take 8)
           seq_number := leBytesToNat ((buffer.drop 24).take 8)
           data_sector := none }, r1)

/-- DataDesc::crc32_from_digest from src/log.rs lines 497-503. -/
def DataDesc.crc32FromDigest (dd : DataDesc) (d : Nat) : Nat :=
  crcUpdate d
    (DataDesc.SIGN ++ dd.trailing_bytes ++ dd.leading_bytes ++
      u64LeBytes dd.file_offset ++ u64LeBytes dd.seq_number)

/-- Descriptor from src/log.rs lines 341-344: the closed Zero or Data
union. -/
inductive Descriptor where
  | Zero (d : ZeroDesc)
  | Data (d : DataDesc)
deriving DecidableEq

/-- Descriptor::crc32_from_digest from src/log.rs lines 378-383. -/
def Descriptor.crc32FromDigest (dd : Descriptor) (d : Nat) : Nat :=
  match dd with
  | Descriptor.Zero z => z.crc32FromDigest d
  | Descriptor.Data dt => dt.crc32FromDigest d

/-- LogEntry from src/log.rs lines 41-44. -/
structure LogEntry where
  header : LogHeader
  descriptors : List Descriptor
deriving DecidableEq

/-- LogEntry::SECTOR_SIZE from src/log.rs line 47. -/
def LogEntry.SECTOR_SIZE : Nat := 4096

/-- LogEntry validation from src/log.rs lines 58-62 (impl Validation for
LogEntry): the body is Ok(()), unconditionally. -/
def LogEntry.validate (_ : LogEntry) : Except VhdxError Unit :=
  Except.ok ()

/-- The CRC composition for a descriptor vector, from the impl Crc32 for
Vec of Descriptor in src/log.rs lines 120-143: every descriptor body in
order, then 4096 - ((64 + 32 len) mod 4096) zero bytes of sector padding,
then the payload of every attached data sector in descriptor order. -/
def descriptorsCrc32FromDigest (ds : List Descriptor) (d : Nat) : Nat :=
  let d1 := ds.foldl (fun acc dd => dd.crc32FromDigest acc) d
  let d2 := crcUpdate d1 (List.replicate (4096 - (64 + ds.length * 32) % 4096) 0)
  ds.foldl
    (fun acc dd =>
      match dd with
      | Descriptor.Data desc =>
          match desc.data_sector with
          | some s => s.crc32FromDigest acc
          | none => acc
      | Descriptor.Zero _ => acc) d2

/-- LogEntry::crc32 from src/log.rs lines 107-118: header digest followed
by the descriptor-vector digest, finalised. -/
def LogEntry.crc32 (e : LogEntry) : Nat :=
  crcFinalize (descriptorsCrc32FromDigest e.descriptors (e.header.crc32FromDigest crcInit))

/-- Interpretation of a u64 bit pattern as an i64 (the offset as i64 cast
inside LogEntry::deserialize). -/
def i64OfU64 (v : Nat) : Int :=
  if v < 2 ^ 63 then (v : Int) else (v : Int) - 2 ^ 64

/-- The descriptor-reading pass of LogEntry::deserialize (src/log.rs lines
74-89): descript_count iterations, each reading 4 bytes, peeking the tag,
seeking back 4 bytes, then dispatching to the Data or Zero decoder; any
other tag panics with the message Fix this error. -/
def readDescriptors : Nat → Reader → Except VhdxError (List Descriptor × Reader)
  | 0, r => Except.ok ([], r)
  | n + 1, r =>
    match readExact r 4 with
    | Except.error e => Except.error e
    | Except.ok (buffer, r1) =>
      match seekFromCurrent r1 (-4) with
      | Except.error e => Except.error e
      | Except.ok r2 =>
        match t_sign_u32 buffer with
        | Signature.Desc =>
          match DataDesc.deserialize r2 with
          | Except.error e => Except.error e
          | Except.ok (d, r3) =>
            match readDescriptors n r3 with
            | Except.error e => Except.error e
            | Except.ok (rest, r4) => Except.ok (Descriptor.Data d :: rest, r4)
        | Signature.Zero =>
          match ZeroDesc.deserialize r2 with
          | Except.error e => Except.error e
          | Except.ok (d, r3) =>
            match readDescriptors n r3 with
            | Except.error e => Except.error e
            | Except.ok (rest, r4) => Except.ok (Descriptor.Zero d :: rest, r4)
        | _ => Except.error VhdxError.PanicFixThisError

/-- The sector-attachment pass of LogEntry::deserialize (src/log.rs lines
95-101): iterate the descriptors in order; a Data descriptor streams one
4096-byte DataSector from the reader (unwrap aborts on a read failure) and
attaches it; a Zero descriptor hits the todo! panic. -/
def attachSectors : List Descriptor → Reader → Except VhdxError (List Descriptor × Reader)
  | [], r => Except.ok ([], r)
  | Descriptor.Data d :: rest, r =>
    match DataSector.deserialize r with
    | Except.error e => Except.error e
    | Except.ok (s, r1) =>
      match attachSectors rest r1 with
      | Except.error e => Except.error e
      | Except.ok (rest2, r2) =>
          Except.ok (Descriptor.Data { d with data_sector := some s } :: rest2, r2)
  | Descriptor.Zero _ :: _, _ => Except.error VhdxError.TodoNotImplemented

/-- LogEntry::deserialize from src/log.rs lines 64-105: record the start
position, read the header, run the descriptor pass, then seek forward by
SECTOR_SIZE minus the bytes consumed (u64 wrapping subtraction cast to
i64, as in the source), and run the sector-attachment pass. -/
def LogEntry.deserialize (r : Reader) : Except VhdxError (LogEntry × Reader) :=
  let start_pos := streamPosition r
  match LogHeader.deserialize r with
  | Except.error e => Except.error e
  | Except.ok (header, r1) =>
    match readDescriptors header.descript_count r1 with
    | Except.error e => Except.error e
    | Except.ok (descriptors, r2) =>
      let current_pos := streamPosition r2
      let offset := (LogEntry.SECTOR_SIZE + 2 ^ 64 - (current_pos - start_pos)) % 2 ^ 64
      match seekFromCurrent r2 (i64OfU64 offset) with
      | Except.error e => Except.error e
      | Except.ok r3 =>
        match attachSectors descriptors r3 with
        | Except.error e => Except.error e
        | Except.ok (descriptors2, r4) =>
            Except.ok ({ header := header, descriptors := descriptors2 }, r4)

/-- LogSequence from src/log.rs lines 599-605: the derived replay view. -/
structure LogSequence where
  sequence_number : Nat
  entries : List LogEntry
  head_value : Nat
  tail_value : Nat
deriving DecidableEq

/-- LogSequence::head from src/log.rs lines 619-621: the last entry of the
vector, if any. -/
def LogSequence.head (s : LogSequence) : Option LogEntry :=
  s.entries.getLast?

/-- LogSequence::is_empty from src/log.rs lines 607-609. -/
def LogSequence.is_empty (s : LogSequence) : Bool :=
  s.entries.isEmpty

/-- LogSequence::is_valid from src/log.rs lines 611-617: on the head entry,
require tail_value at most the head entry tail and head_value at least the
head entry tail; with no head entry the result defaults to false. -/
def LogSequence.is_valid (s : LogSequence) : Bool :=
  match s.head with
  | some v => decide (s.tail_value ≤ v.header.tail) && decide (s.head_value ≥ v.header.tail)
  | none => false

/-- FileTypeIdentifier from src/vhdx_header.rs lines 68-73. -/
structure FileTypeIdentifier where
  signature : Signature
  creator : String
deriving DecidableEq

/-- VhdxHeader from src/vhdx_header.rs lines 19-27: the decoded file header
block with both Header copies and both RegionTable copies. -/
structure VhdxHeader where
  fti : FileTypeIdentifier
  header_1 : Header
  header_2 : Header
  region_table_1 : RegionTable
  region_table_2 : RegionTable
deriving DecidableEq

/-- The header-selection step of Vhdx::new, src/vhdx/vhdx.rs lines 30-31:
the source takes the first header copy, with the comment that the first
header is hardcoded.  No sequence-number comparison and no validation
outcome is consulted. -/
def Vhdx.selectedHeader (vh : VhdxHeader) : Header :=
  vh.header_1

/-- The log-scanning loop of Vhdx::new, src/vhdx/vhdx.rs lines 34-53: while
the stream position differs from the end of the log region, deserialize a
LogEntry and push it, then read 4 bytes, peek the tag, and either seek back
and continue (loge tag) or stop.  The Rust loop has no iteration bound of
its own; the fuel argument bounds the model and FuelExhausted is never
reached on the inputs considered. -/
def logScanLoop : Nat → Nat → Reader → Except VhdxError (List LogEntry × Reader)
  | 0, _, _ => Except.error VhdxError.FuelExhausted
  | fuel + 1, log_end, r =>
    if streamPosition r = log_end then Except.ok ([], r)
    else
      match LogEntry.deserialize r with
      | Except.error e => Except.error e
      | Except.ok (entry, r1) =>
        match readExact r1 4 with
        | Except.error e => Except.error e
        | Except.ok (buffer, r2) =>
          match t_sign_u32 buffer with
          | Signature.Loge =>
            match seekFromCurrent r2 (-4) with
            | Except.error e => Except.error e
            | Except.ok r3 =>
              match logScanLoop fuel log_end r3 with
              | Except.error e => Except.error e
              | Except.ok (rest, r4) => Except.ok (entry :: rest, r4)
          | _ => Except.ok ([entry], r2)

/-- The log-parsing phase of Vhdx::new, src/vhdx/vhdx.rs lines 33-53: seek
to the log offset of the chosen header and scan entries until the region
length is exhausted or a non-loge tag is peeked.  The header fields
log_version and log_guid are never consulted. -/
def Vhdx.readLogEntries (fuel : Nat) (h : Header) (r : Reader) :
    Except VhdxError (List LogEntry × Reader) :=
  logScanLoop fuel (h.log_offset + h.log_length) (seekFromStart r h.log_offset)

/-! Concrete fixtures used by the theorems below. -/

/-- A 64-byte log entry header: loge tag, zero checksum, entry_length 8192,
tail 0, seq_number 1, descript_count 2, reserved, zero guid, zero file
offsets. -/
def c1EntryHeaderBytes : List Nat :=
  [0x6C, 0x6F, 0x67, 0x65] ++ [0, 0, 0, 0] ++ [0, 0x20, 0, 0] ++ [0, 0, 0, 0] ++
    [1, 0, 0, 0, 0, 0, 0, 0] ++ [2, 0, 0, 0] ++ [0, 0, 0, 0] ++
    List.replicate 16 0 ++ List.replicate 8 0 ++ List.replicate 8 0

/-- A log entry whose two descriptors are one Zero descriptor (zero tag,
then zeroed fields) followed by one Data descriptor (desc tag, then zeroed
fields): the smallest mix of both descriptor kinds. -/
def c1Bytes : List Nat :=
  c1EntryHeaderBytes ++ ([0x7A, 0x65, 0x72, 0x6F] ++ List.replicate 28 0) ++
    ([0x64, 0x65, 0x73, 0x63] ++ List.replicate 28 0)

/-- A region table stream: regi tag, zero checksum, entry_count 1, then a
single 32-byte entry whose guid (16 bytes of 0xFF) is not in the lookup
table and whose required flag is 0 (false). -/
def c3Bytes : List Nat :=
  [0x72, 0x65, 0x67, 0x69] ++ [0, 0, 0, 0] ++ [1, 0, 0, 0] ++ [0, 0, 0, 0] ++
    (List.replicate 16 255 ++ List.replicate 8 0 ++ [0, 0, 0, 0] ++ [0, 0, 0, 0])

/-- A region table stream with entry_count 2048 followed by one well-formed
32-byte entry carrying the known block-allocation-table guid, and nothing
after it. -/
def c4Bytes : List Nat :=
  [0x72, 0x65, 0x67, 0x69] ++ [0, 0, 0, 0] ++ [0, 8, 0, 0] ++ [0, 0, 0, 0] ++
    (RegionTable.BAT_ENTRY ++ List.replicate 16 0)

/-- A RegionTable value whose entry_count exceeds the 2047 bound. -/
def c4OversizedTable : RegionTable :=
  { signature := Signature.Regi, checksum := 0, entry_count := 2048, table_entries := [] }

/-- A header that passes Header::validate: version 1, log_version 0, log
length and offset of exactly 1 MB, all identifiers zero, seq_number 4. -/
def baseHeader : Header :=
  { signature := Signature.Head, checksum := 0, seq_number := 4,
    file_write_guid := zeroGuid, data_write_guid := zeroGuid, log_guid := zeroGuid,
    log_version := 0, version := 1, log_length := 1048576, log_offset := 1048576 }

/-- The same header with a strictly larger sequence number (7), the copy
the specification says selection must prefer. -/
def c5HigherSeqHeader : Header :=
  { baseHeader with seq_number := 7 }

/-- An empty region table value, used to populate VhdxHeader fixtures. -/
def emptyRegionTable : RegionTable :=
  { signature := Signature.Regi, checksum := 0, entry_count := 0, table_entries := [] }

/-- A decoded VhdxHeader whose first copy has seq_number 4 and whose second
copy differs from it only by its larger seq_number 7. -/
def c5FileHeader : VhdxHeader :=
  { fti := { signature := Signature.Vhdxfile, creator := "" }
    header_1 := baseHeader
    header_2 := c5HigherSeqHeader
    region_table_1 := emptyRegionTable
    region_table_2 := emptyRegionTable }

/-- A header with nonzero log_version 1 but an all-zero log_guid, the
legacy no-log combination the specification says validation must accept. -/
def c6Header : Header :=
  { baseHeader with log_version := 1 }

/-- A header whose signature is the regi tag instead of the head tag, every
other field as in the valid base header. -/
def c9Header : Header :=
  { baseHeader with signature := Signature.Regi }

/-- A 64-byte log entry header with descript_count 0 (loge tag, entry
length 4096, seq_number 1). -/
def c8EntryHeaderBytes : List Nat :=
  [0x6C, 0x6F, 0x67, 0x65] ++ [0, 0, 0, 0] ++ [0, 0x10, 0, 0] ++ [0, 0, 0, 0] ++
    [1, 0, 0, 0, 0, 0, 0, 0] ++ [0, 0, 0, 0] ++ [0, 0, 0, 0] ++
    List.replicate 16 0 ++ List.replicate 8 0 ++ List.replicate 8 0

/-- A log region holding one 4096-byte log entry (header padded with
zeros), followed by four non-loge bytes after which scanning stops. -/
def c8Bytes : List Nat :=
  c8EntryHeaderBytes ++ List.replicate 4032 0 ++ [0, 0, 0, 0]

/-- A selected header indicating an empty log: log_version 0 and all-zero
log_guid, with a 1 MB log region starting at offset 0 of the fixture
reader. -/
def c8Header : Header :=
  { signature := Signature.Head, checksum := 0, seq_number := 1,
    file_write_guid := zeroGuid, data_write_guid := zeroGuid, log_guid := zeroGuid,
    log_version := 0, version := 1, log_length := 1048576, log_offset := 0 }

/-- A log entry with tail 4096 serving as the head (last) entry of a
sequence fixture. -/
def c2HeadEntry : LogEntry :=
  { header :=
      { signature := Signature.Loge, checksum := 0, entry_length := 4096,
        tail := 4096, seq_number := 1, descript_count := 1, log_guid := zeroGuid,
        flushed_file_offset := 0, last_file_offset := 0 }
    descriptors := [] }

/-- A non-empty log sequence whose head entry tail 4096 lies inside the
interval from tail_value 0 to head_value 8192. -/
def c2Sequence : LogSequence :=
  { sequence_number := 1, entries := [c2HeadEntry], head_value := 8192, tail_value := 0 }

/-- The empty log sequence. -/
def c10EmptySequence : LogSequence :=
  { sequence_number := 0, entries := [], head_value := 0, tail_value := 0 }

/-! Helper lemmas. -/

/-- The only error readExact produces is ShortRead. -/
lemma readExact_error_elim {r : Reader} {n : Nat} {e : VhdxError}
    (h : readExact r n = Except.error e) : e = VhdxError.ShortRead := by
  simp only [readExact] at h
  split at h
  · exact absurd h (by simp)
  · exact (Except.error.inj h).symm

/-- The only error RTEntry::deserialize produces is ShortRead. -/
lemma rtEntry_deserialize_error_elim {r : Reader} {e : VhdxError}
    (h : RTEntry.deserialize r = Except.error e) : e = VhdxError.ShortRead := by
  unfold RTEntry.deserialize at h
  cases hre : readExact r 32 with
  | error e2 =>
      simp only [hre] at h
      exact (Except.error.inj h) ▸ readExact_error_elim hre
  | ok p =>
      obtain ⟨buffer, r1⟩ := p
      simp only [hre] at h
      simp at h

/-- The only error the guid lookup produces is UnknownRTEntryFound. -/
lemma matchKnownRegion_error_elim {g : List Nat} {e : VhdxError}
    (h : matchKnownRegion g = Except.error e) : e = VhdxError.UnknownRTEntryFound g := by
  unfold matchKnownRegion at h
  split at h
  · exact absurd h (by simp)
  · split at h
    · exact absurd h (by simp)
    · exact (Except.error.inj h).symm

/-- The entry loop of RegionTable::deserialize never produces the
RTEntryCountError. -/
lemma rtEntryLoop_no_count_error :
    ∀ (n : Nat) (rt : RegionTable) (r : Reader) (m : Nat),
      rtEntryLoop n rt r ≠ Except.error (VhdxError.RTEntryCountError m) := by
  intro n
  induction n with
  | zero =>
      intro rt r m h
      simp [rtEntryLoop] at h
  | succ k ih =>
      intro rt r m h
      unfold rtEntryLoop at h
      cases hde : RTEntry.deserialize r with
      | error e =>
          simp only [hde] at h
          have he := rtEntry_deserialize_error_elim hde
          subst he
          simp at h
      | ok p =>
          obtain ⟨entry, r1⟩ := p
          simp only [hde] at h
          cases hkr : matchKnownRegion entry.guid with
          | error e =>
              simp only [hkr] at h
              have he := matchKnownRegion_error_elim hkr
              subst he
              simp at h
          | ok kr =>
              simp only [hkr] at h
              exact ih _ _ m h

/-- RegionTable::deserialize never produces the RTEntryCountError. -/
lemma rtDeserialize_no_count_error (r : Reader) (m : Nat) :
    RegionTable.deserialize r ≠ Except.error (VhdxError.RTEntryCountError m) := by
  intro h
  unfold RegionTable.deserialize at h
  cases hre : readExact r 16 with
  | error e =>
      simp only [hre] at h
      have he := readExact_error_elim hre
      subst he
      simp at h
  | ok p =>
      obtain ⟨buffer, r1⟩ := p
      simp only [hre] at h
      exact rtEntryLoop_no_count_error _ _ _ m h

/-! Claim theorems. -/

/-- C1: on a log entry whose descriptor count 2 is satisfied by a mix of one
Zero and one Data descriptor, LogEntry::deserialize does not complete
successfully: the descriptor pass parses both descriptors, but the
sector-attachment pass aborts with the todo! panic as soon as it meets the
Zero descriptor, so the parse result is not Ok.  The first conjunct
evaluates the whole parse to the panic; the others show the header carries
descriptor count 2 and that the descriptor pass alone yields the two-element
mixed descriptor list. -/
theorem c1_mixed_descriptor_entry_panics_not_ok :
    LogEntry.deserialize { data := c1Bytes, pos := 0 } =
      Except.error VhdxError.TodoNotImplemented ∧
    (LogHeader.deserialize { data := c1Bytes, pos := 0 }).toOption.map
      (fun p => p.1.descript_count) = some 2 ∧
    (readDescriptors 2 { data := c1Bytes, pos := 64 }).toOption.map
      (fun p => p.1.length) = some 2 :=
  ⟨rfl, rfl, rfl⟩

/-- C2: for every non-empty LogSequence, is_valid returns true only if the
head entry (the last entry) has its header tail inside the closed interval
from tail_value to head_value, and returns false whenever that tail lies
outside the interval. -/
theorem c2_is_valid_head_tail_bounds (s : LogSequence) (e : LogEntry)
    (h : s.entries.getLast? = some e) :
    (s.is_valid = true →
      s.tail_value ≤ e.header.tail ∧ e.header.tail ≤ s.head_value) ∧
    ((e.header.tail < s.tail_value ∨ s.head_value < e.header.tail) →
      s.is_valid = false) := by
  have hv : s.is_valid =
      (decide (s.tail_value ≤ e.header.tail) && decide (s.head_value ≥ e.header.tail)) := by
    simp [LogSequence.is_valid, LogSequence.head, h]
  constructor
  · intro ht
    rw [hv, Bool.and_eq_true, decide_eq_true_eq, decide_eq_true_eq] at ht
    exact ⟨ht.1, ht.2⟩
  · intro hout
    rw [hv]
    cases hb : (decide (s.tail_value ≤ e.header.tail) && decide (s.head_value ≥ e.header.tail)) with
    | false => rfl
    | true =>
        rw [Bool.and_eq_true, decide_eq_true_eq, decide_eq_true_eq] at hb
        rcases hout with h1 | h1 <;> omega

/-- C2 witness: the bounds read off from the theorem at the concrete
one-entry sequence fixture. -/
theorem c2_is_valid_head_tail_bounds_witness :
    (c2Sequence.is_valid = true →
      c2Sequence.tail_value ≤ c2HeadEntry.header.tail ∧
        c2HeadEntry.header.tail ≤ c2Sequence.head_value) ∧
    ((c2HeadEntry.header.tail < c2Sequence.tail_value ∨
        c2Sequence.head_value < c2HeadEntry.header.tail) →
      c2Sequence.is_valid = false) :=
  c2_is_valid_head_tail_bounds c2Sequence c2HeadEntry (by decide)

/-- C3: RegionTable::deserialize aborts on an entry whose guid is unknown
even though its required flag is false: on the fixture stream the single
entry parses with required = false, yet the table parse fails with the
fatal UnknownRTEntryFound error instead of tolerating the optional entry. -/
theorem c3_unknown_optional_region_aborts :
    (RTEntry.deserialize { data := c3Bytes, pos := 16 }).toOption.map
      (fun p => p.1.required) = some false ∧
    RegionTable.deserialize { data := c3Bytes, pos := 0 } =
      Except.error (VhdxError.UnknownRTEntryFound (List.replicate 16 255)) :=
  ⟨rfl, rfl⟩

/-- C4 counterexample: on a stream whose entry_count field decodes to 2048,
RegionTable::deserialize does not fail with the RegionCountExceeded error
before consuming entry bytes: it reads the first 32-byte entry successfully
and then fails with ShortRead on the second, so the parse neither stops
before the entries nor reports RTEntryCountError. -/
theorem c4_count_2048_reads_entries_first :
    leBytesToNat ((c4Bytes.drop 8).take 4) = 2048 ∧
    RegionTable.deserialize { data := c4Bytes, pos := 0 } =
      Except.error VhdxError.ShortRead ∧
    RegionTable.deserialize { data := c4Bytes, pos := 0 } ≠
      Except.error (VhdxError.RTEntryCountError 2048) := by
  refine ⟨rfl, rfl, ?_⟩
  intro hc
  have h2 : (Except.error VhdxError.ShortRead : Except VhdxError (RegionTable × Reader)) =
      Except.error (VhdxError.RTEntryCountError 2048) :=
    (rfl : RegionTable.deserialize { data := c4Bytes, pos := 0 } =
      Except.error VhdxError.ShortRead).symm.trans hc
  exact VhdxError.noConfusion (Except.error.inj h2)

/-- C4 (amended): the entry_count bound of 2047 is enforced by
RegionTable::validate, which never accepts a table whose entry_count
exceeds it, but not by RegionTable::deserialize, which never produces the
RegionCountExceeded error at all and instead attempts to read every
declared entry. -/
theorem c4_count_bound_enforced_only_by_validate (rt : RegionTable)
    (h : 2047 < rt.entry_count) :
    RegionTable.validate rt ≠ Except.ok () ∧
    ∀ (r : Reader) (m : Nat),
      RegionTable.deserialize r ≠ Except.error (VhdxError.RTEntryCountError m) := by
  constructor
  · intro hok
    unfold RegionTable.validate at hok
    split at hok
    · exact absurd hok (by simp)
    · split at hok
      · exact absurd hok (by simp)
      · exact absurd hok (by simp)
  · intro r m
    exact rtDeserialize_no_count_error r m

/-- C4 witness: the amended theorem applied to the concrete oversized
table. -/
theorem c4_count_bound_enforced_only_by_validate_witness :
    RegionTable.validate c4OversizedTable ≠ Except.ok () :=
  (c4_count_bound_enforced_only_by_validate c4OversizedTable (by decide)).1

/-- C5: the orchestration path does not select by sequence number: with two
header copies that both pass validation and differ only in seq_number (4
versus 7), the selection step of Vhdx::new returns the first copy, the one
with the strictly smaller seq_number, not the copy the claim requires. -/
theorem c5_selection_hardcodes_first_header :
    Header.validate c5FileHeader.header_1 = Except.ok () ∧
    Header.validate c5FileHeader.header_2 = Except.ok () ∧
    c5FileHeader.header_1.seq_number < c5FileHeader.header_2.seq_number ∧
    Vhdx.selectedHeader c5FileHeader = c5FileHeader.header_1 ∧
    Vhdx.selectedHeader c5FileHeader ≠ c5FileHeader.header_2 :=
  ⟨rfl, rfl, by decide, rfl, by decide⟩

/-- C6: Header::validate rejects a header with nonzero log_version even
though its log_guid is the all-zero identifier: the legacy no-log exception
the claim describes is absent from the code. -/
theorem c6_no_zero_log_guid_exception :
    c6Header.log_guid = zeroGuid ∧
    c6Header.log_version ≠ 0 ∧
    Header.validate c6Header =
      Except.error (VhdxError.NotAllowedToBeZero headerLogVersionField) :=
  ⟨rfl, by decide, rfl⟩

/-- C7: the entry-validity predicate never compares the recomputed CRC with
the stored checksum: LogEntry::validate accepts every entry unconditionally,
and LogHeader::validate is insensitive to the stored checksum field (the
comparison is an unimplemented TODO in the source), so an entry with a
mismatched checksum is not failed by validation. -/
theorem c7_validation_never_checks_crc :
    (∀ (e : LogEntry), LogEntry.validate e = Except.ok ()) ∧
    (∀ (h : LogHeader) (c : Nat),
      LogHeader.validate { h with checksum := c } = LogHeader.validate h) :=
  ⟨fun _ => rfl, fun _ _ => rfl⟩

set_option maxRecDepth 200000 in
/-- C8: with a selected header indicating an empty log (log_version 0 and
all-zero log_guid) that itself passes validation, the log-parsing phase of
Vhdx::new still scans the log region and returns one parsed entry from it
rather than treating the log as empty. -/
theorem c8_log_scanned_despite_empty_indication :
    c8Header.log_version = 0 ∧
    c8Header.log_guid = zeroGuid ∧
    Header.validate c8Header = Except.ok () ∧
    (Vhdx.readLogEntries 2 c8Header { data := c8Bytes, pos := 0 }).toOption.map
      (fun p => p.1.length) = some 1 :=
  ⟨rfl, rfl, rfl, by rfl⟩

/-- C9: Header::validate never examines the signature field: a header whose
signature is the regi tag rather than the head tag, with every other field
valid, passes validation instead of failing with a signature mismatch. -/
theorem c9_validate_ignores_signature :
    c9Header.signature ≠ Signature.Head ∧
    Header.validate c9Header = Except.ok () :=
  ⟨by decide, rfl⟩

/-- C10: a LogSequence with an empty entries list is never valid: is_valid
returns false because there is no head entry. -/
theorem c10_empty_sequence_invalid (s : LogSequence) (h : s.entries = []) :
    s.is_valid = false := by
  simp [LogSequence.is_valid, LogSequence.head, h]

/-- C10 witness: the theorem applied to the concrete empty sequence. -/
theorem c10_empty_sequence_invalid_witness : c10EmptySequence.is_valid = false :=
  c10_empty_sequence_invalid c10EmptySequence rfl

end VhdxRs
